import Mathlib

/-!
Verification of the SIH2025 question-answering service (src/app.py).

The development shallowly embeds the Python source: pure string
manipulation (regex extraction, prompt construction, schema formatting)
becomes Lean functions on String / List Char; the external boundaries
(Gemini model, SQLAlchemy engine, filesystem) become an explicit
environment record of oracles; the Flask handlers ask and upload_files
become Lean functions from the environment and request data to a
response paired with an observable trace (model prompts issued, SQL
statements executed).
-/

namespace SIH

/-! ## Python string primitives used by the source -/

/-- Python str.startswith (s.startswith(pre)): pre is a prefix of s. -/
def py_startswith (s pre : String) : Bool :=
  pre.toList.isPrefixOf s.toList

/-- Python str.lower for the ASCII strings that occur in the source. -/
def py_lower (s : String) : String :=
  String.mk (s.toList.map Char.toLower)

/-- Characters removed by Python str.strip() (the ASCII whitespace set;
the strings involved are ASCII). -/
def py_isspace (c : Char) : Bool :=
  c == ' ' || c == '\t' || c == '\n' || c == '\r' || c == '\x0b' || c == '\x0c'

/-- Python str.strip(): drop leading and trailing whitespace. -/
def py_strip (s : String) : String :=
  String.mk (((s.toList.dropWhile py_isspace).reverse.dropWhile py_isspace).reverse)

/-- Python str.replace with a one-character pattern and one-character
replacement: every occurrence is replaced, which is a character map. -/
def py_replace1 (s : String) (pat rep : Char) : String :=
  String.mk (s.toList.map (fun c => if c = pat then rep else c))

/-! ## The SQL-block extraction regex

src/app.py line 113:
  re.search(r"```sql\s*([\s\S]*?)\s*```", raw_response, re.IGNORECASE)
followed by match.group(1).strip() at line 116.

Backtracking semantics of this pattern: the match starts at the leftmost
index i where the literal "```sql" matches case-insensitively and some
closing "```" occurs at an index t ≥ i+6; the lazy group then ends at
the first such closing "```", minus the whitespace margins, which the
subsequent .strip() removes anyway.  So group(1).strip() is exactly the
text strictly between the end of the opening "```sql" and the first
following "```", stripped.  When no such pair exists, re.search returns
None and the caller takes the no-block branch. -/

/-- Whether pat occurs in s starting at index i. -/
def matchAt (pat s : List Char) (i : Nat) : Bool :=
  pat.isPrefixOf (s.drop i)

/-- Smallest index t with start ≤ t at which pat occurs in s. -/
def findFrom (pat s : List Char) (start : Nat) : Option Nat :=
  (List.range (s.length + 1)).find? (fun t => decide (start ≤ t) && matchAt pat s t)

/-- The opening delimiter, lower-cased. -/
def openPat : List Char := ['`', '`', '`', 's', 'q', 'l']

/-- The closing delimiter. -/
def closePat : List Char := ['`', '`', '`']

/-- Model of lines 113-116 of src/app.py: case-insensitive search for a
fenced sql block; on a match, the stripped inner text of the group. -/
def extract_sql (raw : String) : Option String :=
  let s := raw.toList
  let low := s.map Char.toLower
  match (List.range (low.length + 1)).find? (fun i =>
      matchAt openPat low i && (findFrom closePat low (i + 6)).isSome) with
  | none => none
  | some i =>
    match findFrom closePat low (i + 6) with
    | none => none
    | some t => some (py_strip (String.mk ((s.drop (i + 6)).take (t - (i + 6)))))

/-! ## External boundaries (model, engine, filesystem) as oracles -/

/-- The external world seen by one /ask request.

* file_exists: os.path.exists.
* tables: the rows of
  SELECT name FROM sqlite_master WHERE type=[table] for a given database
  file, each paired with its PRAGMA table_info column names, in order.
* gemini: the text returned by the k-th model.generate_content call
  of this request (calls are numbered from 0 in call order).
* connect_err: some msg when engine.connect() raises for this database
  file (SQLAlchemy raises OperationalError when the underlying sqlite
  file cannot be opened, e.g. the path is a directory); none when a
  connection is established.
* run_sql: the outcome of conn.execute(text(sql)).fetchall() on an
  established connection: ok gives the fetched rows, each represented
  by its Python repr string; error msg is a SQLAlchemyError e with
  str(e.orig) = msg. -/
structure Env where
  file_exists : String → Bool
  tables : String → List (String × List String)
  gemini : Nat → String
  connect_err : String → Option String
  run_sql : String → String → Except String (List String)

/-! ## get_db_schema (src/app.py lines 33-49) -/

/-- Model of get_db_schema: fold over the sqlite_master table list,
skipping names that start with the sqlite internal prefix, appending a
header line, one quoted line per column, and a blank line per table. -/
def get_db_schema (tables : List (String × List String)) : String :=
  tables.foldl (fun schema_str t =>
    if py_startswith t.1 "sqlite_" then schema_str
    else
      (t.2.foldl (fun a c => a ++ "- \"" ++ c ++ "\"\n")
        (schema_str ++ "Table: `" ++ t.1 ++ "`\nColumns:\n")) ++ "\n") ""

/-- The description block of a single table, as the spec describes it:
a header naming the table, then each column name individually quoted on
its own line, then a blank line. -/
def table_block (t : String × List String) : String :=
  "Table: `" ++ t.1 ++ "`\nColumns:\n" ++
    (t.2.foldl (fun a c => a ++ "- \"" ++ c ++ "\"\n") "") ++ "\n"

/-- The schema description as the spec states it (section 4.1): the
concatenation of one block per user table, internal tables (name
starting with the reserved sqlite prefix) contributing nothing. -/
def schema_spec : List (String × List String) → String
  | [] => ""
  | t :: rest =>
    (if py_startswith t.1 "sqlite_" then "" else table_block t) ++ schema_spec rest

/-! ## execute_sql (src/app.py lines 51-59) -/

/-- The value returned by execute_sql when it returns normally: either
the fetched rows (each given by its Python repr string) or the string
built from a caught SQLAlchemyError. -/
inductive ExecResult where
  | rows (reprs : List String)
  | sqlError (msg : String)
deriving DecidableEq

/-- Model of execute_sql.  engine.connect() is OUTSIDE the try block in
the source, so an exception raised while establishing the connection
escapes (Except.error); inside the connection, a SQLAlchemyError from
execute/fetchall is caught and turned into the string
"SQL Error: " ++ str(e.orig). -/
def execute_sql (env : Env) (db_file sql_query : String) : Except String ExecResult :=
  match env.connect_err db_file with
  | some e => Except.error e
  | none =>
    match env.run_sql db_file sql_query with
    | Except.ok reprs => Except.ok (ExecResult.rows reprs)
    | Except.error msg => Except.ok (ExecResult.sqlError ("SQL Error: " ++ msg))

/-- Python str() of the list returned by fetchall(): "[" then the row
reprs joined by ", " then "]".  In particular it always begins with the
character [ and the empty result prints as "[]". -/
def py_str_rows (reprs : List String) : String :=
  "[" ++ String.intercalate ", " reprs ++ "]"

/-- result_str = str(result) at line 118: str of a list of rows, or str
of the error string, which is the string itself. -/
def result_str_of : ExecResult → String
  | ExecResult.rows reprs => py_str_rows reprs
  | ExecResult.sqlError msg => msg

/-! ## Prompts (src/app.py lines 89-108 and 131-135) -/

/-- The attempt-0 prompt (lines 90-97). -/
def first_prompt (db_schema question : String) : String :=
  "You are an expert SQLite writer. You MUST follow these rules:\n" ++
  "1. **CRITICAL RULE:** Column names with spaces or special characters MUST be enclosed in double quotes (\"). For example, to use a column named \x27Recharge from Rainfall-MON\x27, you must write `SELECT \"Recharge from Rainfall-MON\"`.\n" ++
  "2. To find the total recharge from rainfall, you MUST add the \"Recharge from Rainfall-MON\" and \"Recharge from Rainfall-NM\" columns together.\n\n" ++
  "Here is the database schema:\n" ++ db_schema ++ "\n\n" ++
  "---\n\n" ++
  "Based on all the rules and the schema, write a single, valid SQLite query to answer the question: " ++ question

/-- The retry prompt (lines 99-108), which embeds the failed SQL text
and the error message of the previous attempt. -/
def retry_prompt (db_schema question sql_query result_str : String) : String :=
  "The previous attempt failed. Please fix it. You MUST follow these rules:\n1. **CRITICAL RULE:** Column names with spaces or special characters MUST be enclosed in double quotes (\").\n2. To find total rainfall recharge, you MUST add \"Recharge from Rainfall-MON\" and \"Recharge from Rainfall-NM\".\n\nSchema:\n"
  ++ db_schema ++ "\nOriginal Question: " ++ question ++ "\nFailed Response/Query: "
  ++ sql_query ++ "\nError Message: " ++ result_str
  ++ "\n\nProvide only the corrected, valid SQLite query inside a ```sql code block."

/-- The paraphrase prompt (lines 131-135). -/
def answer_prompt (question result_str : String) : String :=
  "User Question: " ++ question ++ "\nSQL Result: " ++ result_str ++
  "\n\nProvide a clear, natural language answer."

/-- The synthetic error recorded at line 121 when the model response
contains no fenced sql block. -/
def no_block_msg : String :=
  "SQL Error: The AI response did not contain a valid SQL code block."

/-! ## The retry loop (src/app.py lines 83-128) -/

/-- The mutable locals of the loop, extended with an observable trace:
gcalls counts model.generate_content calls made so far in this request,
prompts records each prompt sent, execs records each (db_file, sql)
actually executed against the database. -/
structure LoopState where
  sql_query : String
  result_str : String
  gcalls : Nat
  prompts : List String
  execs : List (String × String)
deriving DecidableEq

/-- sql_query = "" and result_str = "" before the loop (lines 83-84). -/
def initState : LoopState := ⟨"", "", 0, [], []⟩

/-- Outcome of running the for-loop: normal termination (break or
exhausted range) with the final locals, or an uncaught exception value
propagating to the outer except handler. -/
inductive LoopOut where
  | done (st : LoopState)
  | exn (e : String) (st : LoopState)
deriving DecidableEq

/-- The prompt sent on a given attempt (lines 89-108): the first-attempt
prompt when attempt == 0, otherwise the retry prompt built from the
current sql_query and result_str locals. -/
def prompt_of (attempt : Nat) (db_schema question : String) (st : LoopState) : String :=
  if attempt == 0 then first_prompt db_schema question
  else retry_prompt db_schema question st.sql_query st.result_str

/-- The for attempt in range(max_retries) loop, lines 87-124.  Each
iteration: choose the prompt by attempt == 0, call the model, try to
extract a fenced sql block; on extraction success execute the SQL (this
may raise past execute_sql, modelled by LoopOut.exn); set result_str;
break when result_str does not start with "SQL Error:". -/
def run_attempts (env : Env) (db_file db_schema question : String) :
    List Nat → LoopState → LoopOut
  | [], st => LoopOut.done st
  | attempt :: rest, st =>
    let prompt := prompt_of attempt db_schema question st
    let raw := env.gemini st.gcalls
    let st1 : LoopState :=
      { st with gcalls := st.gcalls + 1, prompts := st.prompts ++ [prompt] }
    match extract_sql raw with
    | some q =>
      let st2 : LoopState := { st1 with sql_query := q, execs := st1.execs ++ [(db_file, q)] }
      match execute_sql env db_file q with
      | Except.error e => LoopOut.exn e st2
      | Except.ok r =>
        let st3 : LoopState := { st2 with result_str := result_str_of r }
        if py_startswith st3.result_str "SQL Error:" then
          run_attempts env db_file db_schema question rest st3
        else LoopOut.done st3
    | none =>
      let st2 : LoopState := { st1 with sql_query := raw, result_str := no_block_msg }
      if py_startswith st2.result_str "SQL Error:" then
        run_attempts env db_file db_schema question rest st2
      else LoopOut.done st2

/-! ## The /ask route (src/app.py lines 67-140) -/

/-- A Flask response from the /ask handler: jsonify({"answer": ...})
with status 200, or jsonify({"error": ...}) with the given status. -/
inductive Resp where
  | answer (text : String)
  | error (msg : String) (code : Nat)
deriving DecidableEq

/-- The request body fields read by the handler; dict.get gives None
for a missing key, modelled by Option. -/
structure ReqData where
  question : Option String
  chat_type : Option String

/-- Python str interpolation of a possibly-None value into an f-string. -/
def py_str_opt : Option String → String
  | none => "None"
  | some s => s

def STORED_DB : String := "data/sqldb.db"

def UPLOADED_DB : String := "data/uploaded_files_sqldb.db"

/-- Line 73: db_file = STORED_DB if chat_type == "sql-stored" else UPLOADED_DB. -/
def select_db (chat_type : Option String) : String :=
  if chat_type = some "sql-stored" then STORED_DB else UPLOADED_DB

/-- Line 85. -/
def max_retries : Nat := 2

/-- Model of the /ask handler, returning the response together with the
final loop state as the observable trace of external calls. -/
def ask (env : Env) (data : ReqData) : Resp × LoopState :=
  let question := py_str_opt data.question
  let db_file := select_db data.chat_type
  if env.file_exists db_file = false then
    (Resp.error ("DB file " ++ db_file ++ " does not exist") 400, initState)
  else
    let db_schema := get_db_schema (env.tables db_file)
    if db_schema = "" then
      (Resp.error ("No tables found in the database: " ++ db_file) 400, initState)
    else
      match run_attempts env db_file db_schema question (List.range max_retries) initState with
      | LoopOut.exn e st =>
        (Resp.error ("An unexpected error occurred: " ++ e) 500, st)
      | LoopOut.done st =>
        if py_startswith st.result_str "SQL Error:" then
          (Resp.answer ("I tried to answer, but the process failed with an error: " ++ st.result_str), st)
        else
          (Resp.answer (env.gemini st.gcalls),
            { st with
              gcalls := st.gcalls + 1
              prompts := st.prompts ++ [answer_prompt question st.result_str] })

/-! ## The /upload route (src/app.py lines 142-163) -/

/-- Rightmost index of a character in a list, as Python str.rfind:
-1 when absent. -/
def py_rfind (s : List Char) (c : Char) : Int :=
  match List.findIdx? (fun x => x = c) s.reverse with
  | none => -1
  | some k => (s.length : Int) - 1 - k

/-- Model of os.path.splitext (posixpath): split at the rightmost dot
that lies after the rightmost path separator, provided some non-dot
character occurs between the separator and that dot; otherwise the
extension is empty. -/
def pySplitext (p : String) : String × String :=
  let s := p.toList
  let sepIndex : Int := py_rfind s '/'
  let dotIndex : Int := py_rfind s '.'
  if sepIndex < dotIndex then
    let d := dotIndex.toNat
    if (List.range d).any (fun j => decide (sepIndex < (j : Int)) && decide (s.getD j '.' ≠ '.')) then
      (String.mk (s.take d), String.mk (s.drop d))
    else (p, "")
  else (p, "")

/-- An uploaded tabular file, given with its parsed content: pandas
read_csv / read_excel yield a DataFrame whose columns are exactly the
header row of the file and whose data are the remaining rows. -/
structure UploadFile where
  filename : String
  header : List String
  rows : List (List String)

/-- A pandas DataFrame, reduced to what to_sql writes. -/
structure DataFrame where
  columns : List String
  rows : List (List String)
deriving DecidableEq

/-- pandas boundary: pd.read_csv(f) parses the file into a DataFrame
whose columns are the header row (line 155). -/
def read_csv (f : UploadFile) : DataFrame := ⟨f.header, f.rows⟩

/-- pandas boundary: pd.read_excel(f), same shape (line 157). -/
def read_excel (f : UploadFile) : DataFrame := ⟨f.header, f.rows⟩

/-- The uploaded database: a mapping from table name to table content. -/
def DbState := String → Option DataFrame

/-- df.to_sql(name, engine, index=False, if_exists="replace"), line 161:
the table called name now holds exactly the DataFrame columns and rows
(no index column is added), replacing any existing table of that name;
all other tables are untouched. -/
def to_sql (name : String) (df : DataFrame) (db : DbState) : DbState :=
  fun k => if k = name then some df else db k

/-- A response from the /upload handler. -/
inductive UploadResp where
  | ok (msg : String)
  | error (msg : String) (code : Nat)
deriving DecidableEq

/-- Line 151: name = os.path.splitext(filename)[0].replace(" ", "_").replace("-", "_"). -/
def normalize_name (filename : String) : String :=
  py_replace1 (py_replace1 (pySplitext filename).1 ' ' '_') '-' '_'

/-- The for f in files loop of upload_files (lines 149-161), threading
the database state; an unsupported extension returns 400 immediately
(tables already written stay written). -/
def upload_loop (db : DbState) : List UploadFile → UploadResp × DbState
  | [] => (UploadResp.ok "Files uploaded successfully.", db)
  | f :: rest =>
    let name := normalize_name f.filename
    let ext := (pySplitext f.filename).2
    if py_lower ext = ".csv" then upload_loop (to_sql name (read_csv f) db) rest
    else if py_lower ext = ".xlsx" then upload_loop (to_sql name (read_excel f) db) rest
    else (UploadResp.error ("Unsupported file type " ++ ext) 400, db)

/-- Model of the /upload handler (lines 142-163). -/
def upload_files (db : DbState) (files : List UploadFile) : UploadResp × DbState :=
  if files.isEmpty then (UploadResp.error "No files uploaded" 400, db)
  else upload_loop db files

/-! ## Classification of result strings -/

/-- Any caught engine error produces a result string with the
"SQL Error:" prefix. -/
theorem py_startswith_sqlerr (m : String) :
    py_startswith ("SQL Error: " ++ m) "SQL Error:" = true := by
  unfold py_startswith
  have h : ("SQL Error: " ++ m).toList = "SQL Error:".toList ++ (' ' :: m.toList) := rfl
  rw [h]
  simp

/-- The synthetic no-block message carries the "SQL Error:" prefix. -/
theorem py_startswith_no_block : py_startswith no_block_msg "SQL Error:" = true := by decide

/-- The Python str() of any fetched row list begins with the character
[, hence never with "SQL Error:": a successful execution is never
classified as a failure by the loop. -/
theorem py_str_rows_not_sqlerr (reprs : List String) :
    py_startswith (py_str_rows reprs) "SQL Error:" = false := by
  unfold py_startswith py_str_rows
  have h : ("[" ++ String.intercalate ", " reprs ++ "]").toList
      = '[' :: (String.intercalate ", " reprs ++ "]").toList := rfl
  rw [h]
  have h2 : "SQL Error:".toList = 'S' :: "QL Error:".toList := rfl
  rw [h2]
  simp [List.isPrefixOf]

/-! ## The schema description agrees with the per-table block view -/

/-- Accumulator lemma for the inner column fold of get_db_schema. -/
theorem col_foldl (l : List String) (a : String) : ∀ b : String,
    l.foldl (fun x c => x ++ "- \"" ++ c ++ "\"\n") (a ++ b)
      = a ++ l.foldl (fun x c => x ++ "- \"" ++ c ++ "\"\n") b := by
  induction l with
  | nil => intro b; rfl
  | cons c cs ih =>
    intro b
    simp only [List.foldl_cons]
    have h : (a ++ b) ++ "- \"" ++ c ++ "\"\n" = a ++ (b ++ "- \"" ++ c ++ "\"\n") := by
      simp only [String.append_assoc]
    rw [h]
    exact ih _

/-- get_db_schema computes exactly the concatenation of the spec-side
per-user-table blocks. -/
theorem get_db_schema_eq_spec (L : List (String × List String)) :
    get_db_schema L = schema_spec L := by
  have go : ∀ (M : List (String × List String)) (acc : String),
      M.foldl (fun schema_str t =>
        if py_startswith t.1 "sqlite_" then schema_str
        else
          (t.2.foldl (fun a c => a ++ "- \"" ++ c ++ "\"\n")
            (schema_str ++ "Table: `" ++ t.1 ++ "`\nColumns:\n")) ++ "\n") acc
      = acc ++ schema_spec M := by
    intro M
    induction M with
    | nil => intro acc; simp [schema_spec]
    | cons t rest ih =>
      intro acc
      simp only [List.foldl_cons, schema_spec]
      rw [ih]
      by_cases hsw : py_startswith t.1 "sqlite_" = true
      · rw [if_pos hsw, if_pos hsw]
        simp
      · rw [if_neg hsw, if_neg hsw]
        have h1 : acc ++ "Table: `" ++ t.1 ++ "`\nColumns:\n"
            = acc ++ ("Table: `" ++ t.1 ++ "`\nColumns:\n") := by
          simp only [String.append_assoc]
        have h2 : "Table: `" ++ t.1 ++ "`\nColumns:\n"
            = ("Table: `" ++ t.1 ++ "`\nColumns:\n") ++ "" := by
          simp
        rw [h1, col_foldl]
        conv_lhs => rw [h2, col_foldl]
        simp only [table_block, String.append_assoc]
  rw [get_db_schema, go, String.empty_append]

/-- A user-table block is never the empty string. -/
theorem table_block_ne_empty (t : String × List String) : table_block t ≠ "" := by
  intro h
  have hlen := congrArg String.length h
  simp [table_block] at hlen
  exact absurd hlen.1.1.1.1 (by decide)

/-- schema_spec is empty exactly when every table is an internal one. -/
theorem schema_spec_empty_iff (L : List (String × List String)) :
    schema_spec L = "" ↔ ∀ t ∈ L, py_startswith t.1 "sqlite_" = true := by
  induction L with
  | nil => simp [schema_spec]
  | cons t rest ih =>
    simp only [schema_spec]
    by_cases hsw : py_startswith t.1 "sqlite_" = true
    · rw [if_pos hsw, String.empty_append, ih]
      constructor
      · intro h u hu
        cases hu with
        | head => exact hsw
        | tail _ hmem => exact h u hmem
      · intro h u hu
        exact h u (List.mem_cons_of_mem t hu)
    · rw [if_neg hsw]
      constructor
      · intro h
        exfalso
        have hd := congrArg String.data h
        rw [String.data_append] at hd
        have h2 := List.append_eq_nil.mp hd
        exact table_block_ne_empty t (String.ext h2.1)
      · intro h
        exact absurd (h t (List.mem_cons_self t rest)) hsw

/-- get_db_schema returns the empty description exactly when the
database has no user tables. -/
theorem get_db_schema_empty_iff (L : List (String × List String)) :
    get_db_schema L = "" ↔ ∀ t ∈ L, py_startswith t.1 "sqlite_" = true := by
  rw [get_db_schema_eq_spec]
  exact schema_spec_empty_iff L

/-! ## Per-attempt outcome -/

/-- Classification of what one loop iteration does at model-call index
k, derived from the environment: the model response had no fenced sql
block; or the extracted SQL was executed and the engine rejected it
(msg is the full "SQL Error: ..." string recorded in result_str); or
the execution succeeded with the given rows; or connecting raised. -/
inductive AttemptOut where
  | no_block (raw : String)
  | exec_err (sql msg : String)
  | ok (sql : String) (reprs : List String)
  | raised (sql e : String)
deriving DecidableEq

def attempt_outcome (env : Env) (db_file : String) (callIdx : Nat) : AttemptOut :=
  match extract_sql (env.gemini callIdx) with
  | none => AttemptOut.no_block (env.gemini callIdx)
  | some q =>
    match env.connect_err db_file with
    | some e => AttemptOut.raised q e
    | none =>
      match env.run_sql db_file q with
      | Except.error m => AttemptOut.exec_err q ("SQL Error: " ++ m)
      | Except.ok reprs => AttemptOut.ok q reprs

/-- The two recoverable failure shapes, with the values the loop stores
in sql_query and result_str. -/
def attempt_failed : AttemptOut → Option (String × String)
  | AttemptOut.no_block raw => some (raw, no_block_msg)
  | AttemptOut.exec_err q m => some (q, m)
  | AttemptOut.ok _ _ => none
  | AttemptOut.raised _ _ => none

/-! ## Successor states of one loop iteration -/

/-- State after a failed extraction: sql_query holds the raw response,
result_str the fixed message, one more model call was made, and — note —
execs is untouched: no query reached the database. -/
def state_no_block (st : LoopState) (p raw : String) : LoopState :=
  { st with sql_query := raw, result_str := no_block_msg, gcalls := st.gcalls + 1, prompts := st.prompts ++ [p] }

/-- State after an executed attempt (error case): the query was sent to
the database and the error string recorded. -/
def state_exec_err (db : String) (st : LoopState) (p s m : String) : LoopState :=
  { st with sql_query := s, result_str := m, gcalls := st.gcalls + 1, prompts := st.prompts ++ [p], execs := st.execs ++ [(db, s)] }

/-- State after a successful execution. -/
def state_ok (db : String) (st : LoopState) (p s : String) (reprs : List String) : LoopState :=
  { st with sql_query := s, result_str := py_str_rows reprs, gcalls := st.gcalls + 1, prompts := st.prompts ++ [p], execs := st.execs ++ [(db, s)] }

/-- State carried by an escaping exception: result_str was not yet
reassigned. -/
def state_raised (db : String) (st : LoopState) (p s : String) : LoopState :=
  { st with sql_query := s, gcalls := st.gcalls + 1, prompts := st.prompts ++ [p], execs := st.execs ++ [(db, s)] }

/-! ## One-step unfolding of the loop, by attempt outcome -/

/-- On a failed extraction the iteration records the fixed message,
executes nothing, and the loop continues with the remaining attempts. -/
theorem run_attempts_step_no_block (env : Env) (db sch q : String) (a : Nat)
    (rest : List Nat) (st : LoopState) (raw : String)
    (h : attempt_outcome env db st.gcalls = AttemptOut.no_block raw) :
    run_attempts env db sch q (a :: rest) st =
      run_attempts env db sch q rest (state_no_block st (prompt_of a sch q st) raw) := by
  unfold attempt_outcome at h
  cases hx : extract_sql (env.gemini st.gcalls) with
  | none =>
    simp only [hx] at h
    injection h with h1
    subst h1
    simp [run_attempts, hx, state_no_block, py_startswith_no_block]
  | some q0 =>
    simp only [hx] at h
    cases hc : env.connect_err db with
    | some e => simp [hc] at h
    | none =>
      simp only [hc] at h
      cases hr : env.run_sql db q0 with
      | ok r => simp [hr] at h
      | error m => simp [hr] at h

/-- On an execution error the iteration records the query and the error
string, and the loop continues with the remaining attempts. -/
theorem run_attempts_step_exec_err (env : Env) (db sch q : String) (a : Nat)
    (rest : List Nat) (st : LoopState) (s m : String)
    (h : attempt_outcome env db st.gcalls = AttemptOut.exec_err s m) :
    run_attempts env db sch q (a :: rest) st =
      run_attempts env db sch q rest (state_exec_err db st (prompt_of a sch q st) s m) := by
  unfold attempt_outcome at h
  cases hx : extract_sql (env.gemini st.gcalls) with
  | none => simp [hx] at h
  | some q0 =>
    simp only [hx] at h
    cases hc : env.connect_err db with
    | some e => simp [hc] at h
    | none =>
      simp only [hc] at h
      cases hr : env.run_sql db q0 with
      | ok r => simp [hr] at h
      | error m0 =>
        simp only [hr] at h
        injection h with h1 h2
        subst h1
        subst h2
        simp [run_attempts, hx, execute_sql, hc, hr, result_str_of, state_exec_err,
          py_startswith_sqlerr]

/-- On a successful execution the loop breaks with the stringified rows
in result_str. -/
theorem run_attempts_step_ok (env : Env) (db sch q : String) (a : Nat)
    (rest : List Nat) (st : LoopState) (s : String) (reprs : List String)
    (h : attempt_outcome env db st.gcalls = AttemptOut.ok s reprs) :
    run_attempts env db sch q (a :: rest) st =
      LoopOut.done (state_ok db st (prompt_of a sch q st) s reprs) := by
  unfold attempt_outcome at h
  cases hx : extract_sql (env.gemini st.gcalls) with
  | none => simp [hx] at h
  | some q0 =>
    simp only [hx] at h
    cases hc : env.connect_err db with
    | some e => simp [hc] at h
    | none =>
      simp only [hc] at h
      cases hr : env.run_sql db q0 with
      | error m => simp [hr] at h
      | ok r =>
        simp only [hr] at h
        injection h with h1 h2
        subst h1
        subst h2
        simp [run_attempts, hx, execute_sql, hc, hr, result_str_of, state_ok,
          py_str_rows_not_sqlerr]

/-- When connecting raises, the exception escapes the iteration. -/
theorem run_attempts_step_raised (env : Env) (db sch q : String) (a : Nat)
    (rest : List Nat) (st : LoopState) (s e : String)
    (h : attempt_outcome env db st.gcalls = AttemptOut.raised s e) :
    run_attempts env db sch q (a :: rest) st =
      LoopOut.exn e (state_raised db st (prompt_of a sch q st) s) := by
  unfold attempt_outcome at h
  cases hx : extract_sql (env.gemini st.gcalls) with
  | none => simp [hx] at h
  | some q0 =>
    simp only [hx] at h
    cases hc : env.connect_err db with
    | none =>
      simp only [hc] at h
      cases hr : env.run_sql db q0 with
      | ok r => simp [hr] at h
      | error m => simp [hr] at h
    | some e0 =>
      simp only [hc] at h
      injection h with h1 h2
      subst h1
      subst h2
      simp [run_attempts, hx, execute_sql, hc, state_raised]

/-- Uniform view of a recoverably failed attempt (extraction failure or
execution error): the loop proceeds to the remaining attempts with
sql_query and result_str holding the recorded pair, one more model
call, and execs extended to some list (empty extension in the
extraction-failure case). -/
theorem run_attempts_step_failed (env : Env) (db sch q : String) (a : Nat)
    (rest : List Nat) (st : LoopState) (s e : String)
    (h : attempt_failed (attempt_outcome env db st.gcalls) = some (s, e)) :
    ∃ ex : List (String × String),
      run_attempts env db sch q (a :: rest) st =
        run_attempts env db sch q rest
          { st with
            sql_query := s
            result_str := e
            gcalls := st.gcalls + 1
            prompts := st.prompts ++ [prompt_of a sch q st]
            execs := ex } := by
  cases hout : attempt_outcome env db st.gcalls with
  | no_block raw =>
    rw [hout] at h
    simp only [attempt_failed] at h
    injection h with h1
    injection h1 with ha hb
    subst ha
    subst hb
    exact ⟨st.execs, run_attempts_step_no_block env db sch q a rest st raw hout⟩
  | exec_err s0 m0 =>
    rw [hout] at h
    simp only [attempt_failed] at h
    injection h with h1
    injection h1 with ha hb
    subst ha
    subst hb
    exact ⟨st.execs ++ [(db, s0)], run_attempts_step_exec_err env db sch q a rest st s0 m0 hout⟩
  | ok s0 r0 => rw [hout] at h; simp only [attempt_failed] at h; cases h
  | raised s0 e0 => rw [hout] at h; simp only [attempt_failed] at h; cases h

/-- Every recoverable failure leaves a result_str carrying the
"SQL Error:" prefix, so the loop always classifies it as a failure. -/
theorem attempt_outcome_failed_prefix (env : Env) (db : String) (k : Nat) (s e : String)
    (h : attempt_failed (attempt_outcome env db k) = some (s, e)) :
    py_startswith e "SQL Error:" = true := by
  unfold attempt_outcome at h
  cases hx : extract_sql (env.gemini k) with
  | none =>
    simp only [hx, attempt_failed] at h
    injection h with h1
    injection h1 with ha hb
    rw [← hb]
    exact py_startswith_no_block
  | some q0 =>
    simp only [hx] at h
    cases hc : env.connect_err db with
    | some e0 => simp [hc, attempt_failed] at h
    | none =>
      simp only [hc] at h
      cases hr : env.run_sql db q0 with
      | ok r => simp [hr, attempt_failed] at h
      | error m =>
        simp only [hr, attempt_failed] at h
        injection h with h1
        injection h1 with ha hb
        rw [← hb]
        exact py_startswith_sqlerr m

/-- With an existing database file and a nonempty schema, ask is the
loop over attempts [0, 1] from the initial state followed by the
terminal dispatch on the final result_str. -/
theorem ask_unfold (env : Env) (data : ReqData)
    (hex : env.file_exists (select_db data.chat_type) = true)
    (hsch : get_db_schema (env.tables (select_db data.chat_type)) ≠ "") :
    ask env data = (match run_attempts env (select_db data.chat_type)
        (get_db_schema (env.tables (select_db data.chat_type))) (py_str_opt data.question)
        [0, 1] initState with
      | LoopOut.exn e st => (Resp.error ("An unexpected error occurred: " ++ e) 500, st)
      | LoopOut.done st =>
        if py_startswith st.result_str "SQL Error:" then
          (Resp.answer ("I tried to answer, but the process failed with an error: " ++ st.result_str), st)
        else
          (Resp.answer (env.gemini st.gcalls),
            { st with
              gcalls := st.gcalls + 1
              prompts := st.prompts ++ [answer_prompt (py_str_opt data.question) st.result_str] })) := by
  unfold ask
  rw [show List.range max_retries = [0, 1] from rfl]
  simp [hex, hsch]

/-- Two-attempt scenario: attempt 0 succeeds; the loop breaks after one
model call and one execution. -/
theorem loop_ok_first (env : Env) (db sch ques q : String) (reprs : List String)
    (h0 : attempt_outcome env db 0 = AttemptOut.ok q reprs) :
    run_attempts env db sch ques [0, 1] initState =
      LoopOut.done
        { sql_query := q
          result_str := py_str_rows reprs
          gcalls := 1
          prompts := [first_prompt sch ques]
          execs := [(db, q)] } := by
  rw [run_attempts_step_ok env db sch ques 0 [1] initState q reprs h0]
  simp [state_ok, initState, prompt_of]

/-- Two-attempt scenario: attempt 0 fails recoverably, attempt 1
succeeds; the loop ends after two model calls with the attempt-1 result
and the retry prompt embedding the attempt-0 failure. -/
theorem loop_fail_then_ok (env : Env) (db sch ques s e q : String) (reprs : List String)
    (h0 : attempt_failed (attempt_outcome env db 0) = some (s, e))
    (h1 : attempt_outcome env db 1 = AttemptOut.ok q reprs) :
    ∃ ex : List (String × String),
      run_attempts env db sch ques [0, 1] initState =
        LoopOut.done
          { sql_query := q
            result_str := py_str_rows reprs
            gcalls := 2
            prompts := [first_prompt sch ques, retry_prompt sch ques s e]
            execs := ex } := by
  obtain ⟨ex, hstep0⟩ := run_attempts_step_failed env db sch ques 0 [1] initState s e h0
  refine ⟨ex ++ [(db, q)], ?_⟩
  rw [hstep0]
  rw [run_attempts_step_ok env db sch ques 1 []
    { initState with
      sql_query := s
      result_str := e
      gcalls := initState.gcalls + 1
      prompts := initState.prompts ++ [prompt_of 0 sch ques initState]
      execs := ex } q reprs h1]
  simp [state_ok, initState, prompt_of]

/-- Two-attempt scenario: both attempts fail recoverably; the loop ends
after exactly two model calls with the attempt-1 failure recorded. -/
theorem loop_fail_then_fail (env : Env) (db sch ques s e s' e' : String)
    (h0 : attempt_failed (attempt_outcome env db 0) = some (s, e))
    (h1 : attempt_failed (attempt_outcome env db 1) = some (s', e')) :
    ∃ ex : List (String × String),
      run_attempts env db sch ques [0, 1] initState =
        LoopOut.done
          { sql_query := s'
            result_str := e'
            gcalls := 2
            prompts := [first_prompt sch ques, retry_prompt sch ques s e]
            execs := ex } := by
  obtain ⟨ex, hstep0⟩ := run_attempts_step_failed env db sch ques 0 [1] initState s e h0
  obtain ⟨ex2, hstep1⟩ := run_attempts_step_failed env db sch ques 1 []
    { initState with
      sql_query := s
      result_str := e
      gcalls := initState.gcalls + 1
      prompts := initState.prompts ++ [prompt_of 0 sch ques initState]
      execs := ex } s' e' h1
  refine ⟨ex2, ?_⟩
  rw [hstep0, hstep1]
  simp [run_attempts, initState, prompt_of]

/-- Two-attempt scenario: neither model response contains a fenced sql
block; nothing is ever executed and the loop ends with the fixed
extraction-failure message. -/
theorem loop_no_block_twice (env : Env) (db sch ques : String)
    (hx0 : extract_sql (env.gemini 0) = none)
    (hx1 : extract_sql (env.gemini 1) = none) :
    run_attempts env db sch ques [0, 1] initState =
      LoopOut.done
        { sql_query := env.gemini 1
          result_str := no_block_msg
          gcalls := 2
          prompts := [first_prompt sch ques, retry_prompt sch ques (env.gemini 0) no_block_msg]
          execs := [] } := by
  have h0 : attempt_outcome env db 0 = AttemptOut.no_block (env.gemini 0) := by
    unfold attempt_outcome
    simp [hx0]
  have h1 : attempt_outcome env db 1 = AttemptOut.no_block (env.gemini 1) := by
    unfold attempt_outcome
    simp [hx1]
  rw [run_attempts_step_no_block env db sch ques 0 [1] initState (env.gemini 0) h0]
  rw [run_attempts_step_no_block env db sch ques 1 []
    (state_no_block initState (prompt_of 0 sch ques initState) (env.gemini 0)) (env.gemini 1) h1]
  simp [run_attempts, state_no_block, initState, prompt_of]

/-! ## Claims -/

/-- C1: the retry budget is exactly two attempts. When attempt 0 fails
recoverably (extraction failure or execution error) and attempt 1
succeeds, ask returns the paraphrase of the attempt-1 result — a third
and final model call whose prompt embeds the attempt-1 rows. When both
attempts fail, ask returns the terminal failure message built from the
attempt-1 (last) error, having made exactly two model calls: no third
attempt occurs. -/
theorem claim_C1_retry_budget (env : Env) (data : ReqData)
    (hex : env.file_exists (select_db data.chat_type) = true)
    (hsch : get_db_schema (env.tables (select_db data.chat_type)) ≠ "") :
    (∀ s e q reprs,
        attempt_failed (attempt_outcome env (select_db data.chat_type) 0) = some (s, e) →
        attempt_outcome env (select_db data.chat_type) 1 = AttemptOut.ok q reprs →
        (ask env data).1 = Resp.answer (env.gemini 2)
        ∧ (ask env data).2.gcalls = 3
        ∧ (ask env data).2.prompts =
            [first_prompt (get_db_schema (env.tables (select_db data.chat_type)))
                (py_str_opt data.question),
              retry_prompt (get_db_schema (env.tables (select_db data.chat_type)))
                (py_str_opt data.question) s e,
              answer_prompt (py_str_opt data.question) (py_str_rows reprs)])
    ∧ (∀ s e s' e',
        attempt_failed (attempt_outcome env (select_db data.chat_type) 0) = some (s, e) →
        attempt_failed (attempt_outcome env (select_db data.chat_type) 1) = some (s', e') →
        (ask env data).1 =
          Resp.answer ("I tried to answer, but the process failed with an error: " ++ e')
        ∧ (ask env data).2.gcalls = 2) := by
  constructor
  · intro s e q reprs h0 h1
    obtain ⟨ex, hloop⟩ := loop_fail_then_ok env (select_db data.chat_type)
      (get_db_schema (env.tables (select_db data.chat_type))) (py_str_opt data.question)
      s e q reprs h0 h1
    rw [ask_unfold env data hex hsch, hloop]
    simp [py_str_rows_not_sqlerr]
  · intro s e s' e' h0 h1
    obtain ⟨ex, hloop⟩ := loop_fail_then_fail env (select_db data.chat_type)
      (get_db_schema (env.tables (select_db data.chat_type))) (py_str_opt data.question)
      s e s' e' h0 h1
    have hpre := attempt_outcome_failed_prefix env (select_db data.chat_type) 1 s' e' h1
    rw [ask_unfold env data hex hsch, hloop]
    simp [hpre]

/-- Concrete environment: the first model response has no sql block,
the second contains SELECT 1 which succeeds with one row. -/
def env_fail_ok : Env :=
  ⟨fun _ => true, fun _ => [("T", ["A"])],
    fun k => if k = 0 then "I cannot help with that."
      else if k = 1 then "```sql\nSELECT 1\n```" else "One row.",
    fun _ => none,
    fun _ q => if q = "SELECT 1" then Except.ok ["(1,)"] else Except.error "no such table: X"⟩

/-- Concrete environment: the first model response has no sql block,
the second selects from a missing table and the engine rejects it. -/
def env_fail_fail : Env :=
  ⟨fun _ => true, fun _ => [("T", ["A"])],
    fun k => if k = 0 then "I cannot help with that."
      else "```sql\nSELECT * FROM X\n```",
    fun _ => none,
    fun _ _ => Except.error "no such table: X"⟩

theorem claim_C1_retry_budget_witness :
    (ask env_fail_ok ⟨some "How many rows?", none⟩).1 = Resp.answer (env_fail_ok.gemini 2)
    ∧ (ask env_fail_ok ⟨some "How many rows?", none⟩).2.gcalls = 3
    ∧ (ask env_fail_fail ⟨some "How many rows?", none⟩).1 =
        Resp.answer ("I tried to answer, but the process failed with an error: "
          ++ "SQL Error: no such table: X")
    ∧ (ask env_fail_fail ⟨some "How many rows?", none⟩).2.gcalls = 2 := by
  have hA := (claim_C1_retry_budget env_fail_ok ⟨some "How many rows?", none⟩
    rfl (by decide)).1 "I cannot help with that." no_block_msg "SELECT 1" ["(1,)"]
    (by decide) (by decide)
  have hB := (claim_C1_retry_budget env_fail_fail ⟨some "How many rows?", none⟩
    rfl (by decide)).2 "I cannot help with that." no_block_msg "SELECT * FROM X"
    ("SQL Error: " ++ "no such table: X") (by decide) (by decide)
  exact ⟨hA.1, hA.2.1, hB.1, hB.2⟩

/-- The retry prompt embeds the failed SQL text and the error message
verbatim, in this order, between fixed literal segments. -/
theorem retry_prompt_embeds (sch ques s e : String) :
    ∃ p1 p2 p3, retry_prompt sch ques s e = p1 ++ s ++ p2 ++ e ++ p3 :=
  ⟨"The previous attempt failed. Please fix it. You MUST follow these rules:\n1. **CRITICAL RULE:** Column names with spaces or special characters MUST be enclosed in double quotes (\").\n2. To find total rainfall recharge, you MUST add \"Recharge from Rainfall-MON\" and \"Recharge from Rainfall-NM\".\n\nSchema:\n"
      ++ sch ++ "\nOriginal Question: " ++ ques ++ "\nFailed Response/Query: ",
    "\nError Message: ",
    "\n\nProvide only the corrected, valid SQLite query inside a ```sql code block.", rfl⟩

/-- C2: a model response without a fenced sql block makes the iteration
record the fixed extraction-failure message without touching the execs
trace — no query reaches the database on that attempt — and hand the
remaining attempts to the loop; when both responses lack a block, ask
returns the terminal failure carrying the fixed message after exactly
two model calls and zero executed queries. -/
theorem claim_C2_no_block_never_executes (env : Env) (data : ReqData)
    (hex : env.file_exists (select_db data.chat_type) = true)
    (hsch : get_db_schema (env.tables (select_db data.chat_type)) ≠ "") :
    (∀ (db sch ques : String) (a : Nat) (rest : List Nat) (st : LoopState),
        extract_sql (env.gemini st.gcalls) = none →
        run_attempts env db sch ques (a :: rest) st =
          run_attempts env db sch ques rest
            { st with
              sql_query := env.gemini st.gcalls
              result_str := no_block_msg
              gcalls := st.gcalls + 1
              prompts := st.prompts ++ [prompt_of a sch ques st] })
    ∧ (extract_sql (env.gemini 0) = none →
        extract_sql (env.gemini 1) = none →
        ask env data =
          (Resp.answer ("I tried to answer, but the process failed with an error: " ++ no_block_msg),
            { sql_query := env.gemini 1
              result_str := no_block_msg
              gcalls := 2
              prompts := [first_prompt (get_db_schema (env.tables (select_db data.chat_type)))
                  (py_str_opt data.question),
                retry_prompt (get_db_schema (env.tables (select_db data.chat_type)))
                  (py_str_opt data.question) (env.gemini 0) no_block_msg]
              execs := [] })) := by
  constructor
  · intro db sch ques a rest st hx
    have h0 : attempt_outcome env db st.gcalls = AttemptOut.no_block (env.gemini st.gcalls) := by
      unfold attempt_outcome
      simp [hx]
    exact run_attempts_step_no_block env db sch ques a rest st _ h0
  · intro hx0 hx1
    have hloop := loop_no_block_twice env (select_db data.chat_type)
      (get_db_schema (env.tables (select_db data.chat_type))) (py_str_opt data.question) hx0 hx1
    rw [ask_unfold env data hex hsch, hloop]
    simp [py_startswith_no_block]

/-- Concrete environment whose model never produces a sql block. -/
def env_no_block : Env :=
  ⟨fun _ => true, fun _ => [("T", ["A"])], fun _ => "no sql here", fun _ => none,
    fun _ _ => Except.ok []⟩

theorem claim_C2_no_block_never_executes_witness :
    (run_attempts env_no_block "d" "sch" "q" [0] initState =
      run_attempts env_no_block "d" "sch" "q" []
        { initState with
          sql_query := env_no_block.gemini initState.gcalls
          result_str := no_block_msg
          gcalls := initState.gcalls + 1
          prompts := initState.prompts ++ [prompt_of 0 "sch" "q" initState] })
    ∧ ask env_no_block ⟨some "Q", none⟩ =
        (Resp.answer ("I tried to answer, but the process failed with an error: " ++ no_block_msg),
          { sql_query := env_no_block.gemini 1
            result_str := no_block_msg
            gcalls := 2
            prompts := [first_prompt (get_db_schema (env_no_block.tables (select_db none)))
                (py_str_opt (some "Q")),
              retry_prompt (get_db_schema (env_no_block.tables (select_db none)))
                (py_str_opt (some "Q")) (env_no_block.gemini 0) no_block_msg]
            execs := [] }) :=
  ⟨(claim_C2_no_block_never_executes env_no_block ⟨some "Q", none⟩ rfl (by decide)).1
      "d" "sch" "q" 0 [] initState (by decide),
    (claim_C2_no_block_never_executes env_no_block ⟨some "Q", none⟩ rfl (by decide)).2
      (by decide) (by decide)⟩

/-- C5: an execution that succeeds with zero rows is a success, not a
failure: the loop exits and the paraphrase model call receives the
stringified empty result "[]", whose text is the final answer prompt —
both when the zero-row success happens on attempt 0 and when it happens
on attempt 1 after a failed attempt 0. -/
theorem claim_C5_zero_rows_is_success (env : Env) (data : ReqData)
    (hex : env.file_exists (select_db data.chat_type) = true)
    (hsch : get_db_schema (env.tables (select_db data.chat_type)) ≠ "") :
    (∀ q, attempt_outcome env (select_db data.chat_type) 0 = AttemptOut.ok q [] →
        ask env data =
          (Resp.answer (env.gemini 1),
            { sql_query := q
              result_str := "[]"
              gcalls := 2
              prompts := [first_prompt (get_db_schema (env.tables (select_db data.chat_type)))
                  (py_str_opt data.question),
                answer_prompt (py_str_opt data.question) "[]"]
              execs := [(select_db data.chat_type, q)] }))
    ∧ (∀ s e q, attempt_failed (attempt_outcome env (select_db data.chat_type) 0) = some (s, e) →
        attempt_outcome env (select_db data.chat_type) 1 = AttemptOut.ok q [] →
        (ask env data).1 = Resp.answer (env.gemini 2)
        ∧ (ask env data).2.prompts =
            [first_prompt (get_db_schema (env.tables (select_db data.chat_type)))
                (py_str_opt data.question),
              retry_prompt (get_db_schema (env.tables (select_db data.chat_type)))
                (py_str_opt data.question) s e,
              answer_prompt (py_str_opt data.question) "[]"]) := by
  have hemp : py_str_rows [] = "[]" := rfl
  have hfalse : py_startswith "[]" "SQL Error:" = false := by decide
  constructor
  · intro q h0
    have hloop := loop_ok_first env (select_db data.chat_type)
      (get_db_schema (env.tables (select_db data.chat_type))) (py_str_opt data.question)
      q [] h0
    rw [hemp] at hloop
    rw [ask_unfold env data hex hsch, hloop]
    simp [hfalse]
  · intro s e q h0 h1
    obtain ⟨ex, hloop⟩ := loop_fail_then_ok env (select_db data.chat_type)
      (get_db_schema (env.tables (select_db data.chat_type))) (py_str_opt data.question)
      s e q [] h0 h1
    rw [hemp] at hloop
    rw [ask_unfold env data hex hsch, hloop]
    simp [hfalse]

/-- Concrete environment: the model immediately produces a query whose
execution succeeds with zero rows. -/
def env_zero_rows : Env :=
  ⟨fun _ => true, fun _ => [("T", ["A"])],
    fun k => if k = 0 then "```sql\nSELECT A FROM T WHERE A < 0\n```" else "Nothing matched.",
    fun _ => none,
    fun _ _ => Except.ok []⟩

theorem claim_C5_zero_rows_is_success_witness :
    ask env_zero_rows ⟨some "Which rows are negative?", none⟩ =
      (Resp.answer (env_zero_rows.gemini 1),
        { sql_query := "SELECT A FROM T WHERE A < 0"
          result_str := "[]"
          gcalls := 2
          prompts := [first_prompt (get_db_schema (env_zero_rows.tables (select_db none)))
              (py_str_opt (some "Which rows are negative?")),
            answer_prompt (py_str_opt (some "Which rows are negative?")) "[]"]
          execs := [(select_db none, "SELECT A FROM T WHERE A < 0")] }) :=
  (claim_C5_zero_rows_is_success env_zero_rows ⟨some "Which rows are negative?", none⟩
    rfl (by decide)).1 "SELECT A FROM T WHERE A < 0" (by decide)

/-- C6: whenever attempt 0 fails recoverably and a retry follows, the
retry prompt is always sent as the second model call and embeds both
the previously attempted SQL text (or raw response) and the error
message of the failed attempt, verbatim: the recovered error is never
dropped from the feedback. -/
theorem claim_C6_retry_embeds_failure (env : Env) (data : ReqData)
    (hex : env.file_exists (select_db data.chat_type) = true)
    (hsch : get_db_schema (env.tables (select_db data.chat_type)) ≠ "") :
    ∀ s e, attempt_failed (attempt_outcome env (select_db data.chat_type) 0) = some (s, e) →
      (∃ tail, (ask env data).2.prompts =
          [first_prompt (get_db_schema (env.tables (select_db data.chat_type)))
              (py_str_opt data.question),
            retry_prompt (get_db_schema (env.tables (select_db data.chat_type)))
              (py_str_opt data.question) s e] ++ tail)
      ∧ (∃ p1 p2 p3,
          retry_prompt (get_db_schema (env.tables (select_db data.chat_type)))
              (py_str_opt data.question) s e = p1 ++ s ++ p2 ++ e ++ p3) := by
  intro s e h0
  refine ⟨?_, retry_prompt_embeds _ _ s e⟩
  cases hout1 : attempt_outcome env (select_db data.chat_type) 1 with
  | ok q reprs =>
    obtain ⟨ex, hloop⟩ := loop_fail_then_ok env (select_db data.chat_type)
      (get_db_schema (env.tables (select_db data.chat_type))) (py_str_opt data.question)
      s e q reprs h0 hout1
    rw [ask_unfold env data hex hsch, hloop]
    exact ⟨[answer_prompt (py_str_opt data.question) (py_str_rows reprs)],
      by simp [py_str_rows_not_sqlerr]⟩
  | no_block raw =>
    have h1 : attempt_failed (attempt_outcome env (select_db data.chat_type) 1)
        = some (raw, no_block_msg) := by
      rw [hout1]
      rfl
    obtain ⟨ex, hloop⟩ := loop_fail_then_fail env (select_db data.chat_type)
      (get_db_schema (env.tables (select_db data.chat_type))) (py_str_opt data.question)
      s e raw no_block_msg h0 h1
    rw [ask_unfold env data hex hsch, hloop]
    exact ⟨[], by simp [py_startswith_no_block]⟩
  | exec_err s0 m0 =>
    have h1 : attempt_failed (attempt_outcome env (select_db data.chat_type) 1)
        = some (s0, m0) := by
      rw [hout1]
      rfl
    have hpre := attempt_outcome_failed_prefix env (select_db data.chat_type) 1 s0 m0 h1
    obtain ⟨ex, hloop⟩ := loop_fail_then_fail env (select_db data.chat_type)
      (get_db_schema (env.tables (select_db data.chat_type))) (py_str_opt data.question)
      s e s0 m0 h0 h1
    rw [ask_unfold env data hex hsch, hloop]
    exact ⟨[], by simp [hpre]⟩
  | raised s0 e0 =>
    obtain ⟨ex, hstep0⟩ := run_attempts_step_failed env (select_db data.chat_type)
      (get_db_schema (env.tables (select_db data.chat_type))) (py_str_opt data.question)
      0 [1] initState s e h0
    rw [ask_unfold env data hex hsch, hstep0,
      run_attempts_step_raised env (select_db data.chat_type)
        (get_db_schema (env.tables (select_db data.chat_type))) (py_str_opt data.question) 1 []
        { initState with
          sql_query := s
          result_str := e
          gcalls := initState.gcalls + 1
          prompts := initState.prompts ++ [prompt_of 0
            (get_db_schema (env.tables (select_db data.chat_type))) (py_str_opt data.question)
            initState]
          execs := ex } s0 e0 hout1]
    exact ⟨[], by simp [state_raised, initState, prompt_of]⟩

theorem claim_C6_retry_embeds_failure_witness :
    (∃ tail, (ask env_fail_ok ⟨some "How many rows?", none⟩).2.prompts =
        [first_prompt (get_db_schema (env_fail_ok.tables (select_db none)))
            (py_str_opt (some "How many rows?")),
          retry_prompt (get_db_schema (env_fail_ok.tables (select_db none)))
            (py_str_opt (some "How many rows?")) "I cannot help with that." no_block_msg]
        ++ tail)
    ∧ (∃ p1 p2 p3,
        retry_prompt (get_db_schema (env_fail_ok.tables (select_db none)))
            (py_str_opt (some "How many rows?")) "I cannot help with that." no_block_msg
          = p1 ++ "I cannot help with that." ++ p2 ++ no_block_msg ++ p3) :=
  claim_C6_retry_embeds_failure env_fail_ok ⟨some "How many rows?", none⟩ rfl (by decide)
    "I cannot help with that." no_block_msg (by decide)

/-- C9 (amended): the loop classifies an attempt as failed exactly by
the "SQL Error:" prefix of the stringified execution result — engine
errors and the synthetic no-block message always carry that prefix —
but the stringified result of a successful execution always begins
with the character [, so no successful execution is ever misclassified
as a failure: whenever the first execution succeeds, whatever text the
rows contain, ask takes the paraphrase path, never the terminal
failure path. -/
theorem claim_C9_prefix_classification (env : Env) (data : ReqData)
    (hex : env.file_exists (select_db data.chat_type) = true)
    (hsch : get_db_schema (env.tables (select_db data.chat_type)) ≠ "") :
    (∀ reprs, py_startswith (result_str_of (ExecResult.rows reprs)) "SQL Error:" = false)
    ∧ (∀ m, py_startswith (result_str_of (ExecResult.sqlError ("SQL Error: " ++ m)))
        "SQL Error:" = true)
    ∧ (∀ q reprs, attempt_outcome env (select_db data.chat_type) 0 = AttemptOut.ok q reprs →
        (ask env data).1 = Resp.answer (env.gemini 1)) := by
  refine ⟨fun reprs => py_str_rows_not_sqlerr reprs, fun m => py_startswith_sqlerr m, ?_⟩
  intro q reprs h0
  have hloop := loop_ok_first env (select_db data.chat_type)
    (get_db_schema (env.tables (select_db data.chat_type))) (py_str_opt data.question)
    q reprs h0
  rw [ask_unfold env data hex hsch, hloop]
  simp [py_str_rows_not_sqlerr]

/-- C9 counterexample: the misclassification the claim asserts to exist
is impossible — no row-repr list whatsoever makes the stringified
successful result pass the "SQL Error:" prefix test, because str() of
the fetched list always begins with the character [. -/
theorem claim_C9_counterexample :
    ¬ ∃ reprs : List String,
        py_startswith (result_str_of (ExecResult.rows reprs)) "SQL Error:" = true := by
  rintro ⟨reprs, h⟩
  simp only [result_str_of] at h
  rw [py_str_rows_not_sqlerr reprs] at h
  exact Bool.noConfusion h

/-- Concrete environment whose single successful row repr itself
contains the text "SQL Error:" — still not misclassified. -/
def env_sqlish_rows : Env :=
  ⟨fun _ => true, fun _ => [("T", ["A"])],
    fun k => if k = 0 then "```sql\nSELECT A FROM T\n```" else "Done.",
    fun _ => none,
    fun _ _ => Except.ok ["('SQL Error: not really',)"]⟩

theorem claim_C9_prefix_classification_witness :
    (ask env_sqlish_rows ⟨some "Show A", none⟩).1 = Resp.answer (env_sqlish_rows.gemini 1) :=
  (claim_C9_prefix_classification env_sqlish_rows ⟨some "Show A", none⟩ rfl (by decide)).2.2
    "SELECT A FROM T" ["('SQL Error: not really',)"] (by decide)

/-- C7: for every database file, the schema introspector returns
exactly the concatenation of one block per user table — each block
naming the table and listing its column names individually quoted —
omitting every internal table (name starting with the reserved sqlite
prefix), and the description is empty exactly when the database has no
user table. -/
theorem claim_C7_schema_introspector (L : List (String × List String)) :
    get_db_schema L = schema_spec L
    ∧ (get_db_schema L = "" ↔ ∀ t ∈ L, py_startswith t.1 "sqlite_" = true) :=
  ⟨get_db_schema_eq_spec L, get_db_schema_empty_iff L⟩

theorem claim_C7_schema_introspector_witness :
    get_db_schema [("sqlite_sequence", ["name", "seq"]), ("T", ["A-B", "C"])]
      = schema_spec [("sqlite_sequence", ["name", "seq"]), ("T", ["A-B", "C"])]
    ∧ (get_db_schema [("sqlite_sequence", ["name", "seq"]), ("T", ["A-B", "C"])] = ""
        ↔ ∀ t ∈ [("sqlite_sequence", ["name", "seq"]), ("T", ["A-B", "C"])],
            py_startswith t.1 "sqlite_" = true) :=
  claim_C7_schema_introspector _

/-- C4: when the selected database file exists but every table in it is
an internal sqlite table (zero user tables), ask returns the 400
schema-empty client error, and the returned trace records zero model
calls: the flow short-circuits before any model call. -/
theorem claim_C4_empty_schema_short_circuit (env : Env) (data : ReqData)
    (hex : env.file_exists (select_db data.chat_type) = true)
    (hall : ∀ t ∈ env.tables (select_db data.chat_type), py_startswith t.1 "sqlite_" = true) :
    ask env data =
      (Resp.error ("No tables found in the database: " ++ select_db data.chat_type) 400, initState)
    ∧ (ask env data).2.prompts = [] := by
  have hsch : get_db_schema (env.tables (select_db data.chat_type)) = "" :=
    (get_db_schema_empty_iff _).mpr hall
  have h : ask env data =
      (Resp.error ("No tables found in the database: " ++ select_db data.chat_type) 400, initState) := by
    unfold ask
    simp [hex, hsch]
  exact ⟨h, by rw [h]; rfl⟩


/-- A simple concrete environment whose database holds only an internal
sqlite table. -/
def env_only_internal : Env :=
  ⟨fun _ => true, fun _ => [("sqlite_sequence", ["name", "seq"])], fun _ => "", fun _ => none,
    fun _ _ => Except.ok []⟩

theorem claim_C4_empty_schema_short_circuit_witness :
    ask env_only_internal ⟨some "How many rows?", none⟩ =
      (Resp.error ("No tables found in the database: " ++ select_db none) 400, initState)
    ∧ (ask env_only_internal ⟨some "How many rows?", none⟩).2.prompts = [] :=
  claim_C4_empty_schema_short_circuit env_only_internal ⟨some "How many rows?", none⟩
    (by decide) (by decide)

/-- C3 (amended): on every database path for which the connection is
established, the executor never lets an exception escape — a successful
fetch returns the full ordered row list, and an engine rejection of the
statement returns the error value carrying the engine message; when
establishing the connection itself raises, however, the exception
escapes execute_sql, because the with engine.connect() line sits
outside the try block. -/
theorem claim_C3_executor_boundary (env : Env) (db_file sql : String)
    (hconn : env.connect_err db_file = none) :
    (∀ reprs, env.run_sql db_file sql = Except.ok reprs →
        execute_sql env db_file sql = Except.ok (ExecResult.rows reprs))
    ∧ (∀ m, env.run_sql db_file sql = Except.error m →
        execute_sql env db_file sql = Except.ok (ExecResult.sqlError ("SQL Error: " ++ m)))
    ∧ (∀ e, execute_sql env db_file sql ≠ Except.error e) := by
  refine ⟨?_, ?_, ?_⟩
  · intro reprs hr
    unfold execute_sql
    rw [hconn, hr]
  · intro m hr
    unfold execute_sql
    rw [hconn, hr]
  · intro e h
    unfold execute_sql at h
    rw [hconn] at h
    cases hr : env.run_sql db_file sql with
    | ok r => rw [hr] at h; cases h
    | error m => rw [hr] at h; cases h

/-- A trivial healthy environment. -/
def triv_env : Env :=
  ⟨fun _ => true, fun _ => [("T", ["A"])], fun _ => "", fun _ => none, fun _ _ => Except.ok []⟩

theorem claim_C3_executor_boundary_witness :
    execute_sql triv_env STORED_DB "SELECT 1" = Except.ok (ExecResult.rows []) :=
  (claim_C3_executor_boundary triv_env STORED_DB "SELECT 1" rfl).1 [] rfl

/-- An environment in which the sqlite file behind the path "data"
cannot be opened (the path names a directory), so engine.connect()
raises OperationalError. -/
def connect_fail_env : Env :=
  ⟨fun _ => true, fun _ => [], fun _ => "",
    fun _ => some "unable to open database file", fun _ _ => Except.ok []⟩

/-- C3 counterexample: at a database path whose file cannot be opened,
the exception raised by engine.connect() escapes execute_sql instead of
being returned as a value — the connect call is outside the try block —
refuting the claim as stated for this path. -/
theorem claim_C3_executor_boundary_counterexample :
    execute_sql connect_fail_env "data" "SELECT 1"
      = Except.error "unable to open database file" := rfl

/-- C10: the database selector is unvalidated. Exactly the literal
"sql-stored" selects the stored database; every other chat_type value —
a missing one, "stored", "uploaded", anything else — silently selects
the uploaded database, and the request is then processed identically to
a request with no chat_type at all: it is never rejected as a client
error. -/
theorem claim_C10_chat_type_unvalidated :
    select_db (some "sql-stored") = STORED_DB
    ∧ select_db none = UPLOADED_DB
    ∧ select_db (some "stored") = UPLOADED_DB
    ∧ select_db (some "uploaded") = UPLOADED_DB
    ∧ (∀ ct : Option String, ct ≠ some "sql-stored" → select_db ct = UPLOADED_DB)
    ∧ (∀ (env : Env) (q ct : Option String), ct ≠ some "sql-stored" →
        ask env ⟨q, ct⟩ = ask env ⟨q, none⟩) := by
  refine ⟨rfl, rfl, by decide, by decide, ?_, ?_⟩
  · intro ct h
    unfold select_db
    rw [if_neg h]
  · intro env q ct h
    have h1 : select_db ct = select_db none := by
      unfold select_db
      rw [if_neg h, if_neg (by decide : ¬ (none : Option String) = some "sql-stored")]
    unfold ask
    rw [h1]

theorem claim_C10_chat_type_unvalidated_witness :
    select_db (some "xyz") = UPLOADED_DB
    ∧ ask triv_env ⟨some "How many rows?", some "uploaded"⟩
        = ask triv_env ⟨some "How many rows?", none⟩ :=
  ⟨claim_C10_chat_type_unvalidated.2.2.2.2.1 (some "xyz") (by decide),
    claim_C10_chat_type_unvalidated.2.2.2.2.2 triv_env (some "How many rows?")
      (some "uploaded") (by decide)⟩

/-- C8: uploading a tabular file materializes it as a table named after
the base name of the file with spaces and hyphens normalized to
underscores, replacing any existing table of that name; the stored
columns are exactly the header row of the file (no index column is
added); and the name "Rainfall Data-2023.csv" normalizes uniformly to
"Rainfall_Data_2023". -/
theorem claim_C8_upload_roundtrip (db : DbState) (f : UploadFile)
    (hcsv : py_lower (pySplitext f.filename).2 = ".csv") :
    (upload_files db [f]).1 = UploadResp.ok "Files uploaded successfully."
    ∧ (upload_files db [f]).2 (normalize_name f.filename)
        = some ⟨f.header, f.rows⟩
    ∧ (∀ k, k ≠ normalize_name f.filename → (upload_files db [f]).2 k = db k)
    ∧ normalize_name "Rainfall Data-2023.csv" = "Rainfall_Data_2023" := by
  have hne : ([f] : List UploadFile).isEmpty = false := rfl
  have hrun : upload_files db [f] =
      (UploadResp.ok "Files uploaded successfully.",
        to_sql (normalize_name f.filename) (read_csv f) db) := by
    unfold upload_files
    rw [hne]
    simp [upload_loop, hcsv]
  refine ⟨by rw [hrun], ?_, ?_, by decide⟩
  · rw [hrun]
    unfold to_sql read_csv
    simp
  · intro k hk
    rw [hrun]
    unfold to_sql
    simp [hk]

/-- A database that already holds a table named Rainfall_Data_2023 with
different columns, to exhibit replacement. -/
def db_with_old_table : DbState :=
  fun k => if k = "Rainfall_Data_2023" then some ⟨["old"], []⟩ else none

/-- The uploaded rainfall file of the round-trip scenario. -/
def rainfall_file : UploadFile :=
  ⟨"Rainfall Data-2023.csv", ["Year", "Recharge from Rainfall-MON"], [["2023", "11.5"]]⟩

theorem claim_C8_upload_roundtrip_witness :
    (upload_files db_with_old_table [rainfall_file]).1
      = UploadResp.ok "Files uploaded successfully."
    ∧ (upload_files db_with_old_table [rainfall_file]).2
        (normalize_name "Rainfall Data-2023.csv")
        = some ⟨["Year", "Recharge from Rainfall-MON"], [["2023", "11.5"]]⟩
    ∧ (∀ k, k ≠ normalize_name "Rainfall Data-2023.csv" →
        (upload_files db_with_old_table [rainfall_file]).2 k = db_with_old_table k)
    ∧ normalize_name "Rainfall Data-2023.csv" = "Rainfall_Data_2023" :=
  claim_C8_upload_roundtrip db_with_old_table rainfall_file (by decide)

end SIH
